import Mathlib

/-!
Verification of `invertible_layers.py` (normalizing-flow layers: the `Layer`
protocol, permutation / squeeze / split / prior / coupling / normalization
layers and the `RevNetStep` / `RevNet` / `Codec` assembly).

Two shallow embeddings of the array data are used, each faithful to the
source at the granularity the proved statement needs:

* a flat row-major tensor (`PyT`): a shape list plus a flat list of
  rationals, with `transpose` / `permute` / `reshape` modelled exactly as
  materialized (contiguous) torch operations.  This is used for the
  reshape-heavy `Squeeze` code and for the layer-dispatch model.
* a curried function tensor (`Ten bs c h w`): a function from indices to
  rationals, used for the algebraic layers (1x1 convolution, couplings,
  priors) where the statements quantify over all shapes.

Real numbers are modelled by `ℚ`; the transcendental functions the code
uses (`log`, `sigmoid`) and the external trainable network `NN` (declared
in the absent `layers.py`) are abstract function parameters, so every
theorem holds for any interpretation of them.  Python exceptions are
modelled by `Except Err`.
-/

/-- Python exception kinds raised (or raisable) by the source. -/
inductive Err where
  | notImplemented
  | valueError
  | assertionError
  | nameError
  | typeError
  | indexError
  | runtimeError
  deriving DecidableEq, Repr

/-! ## Flat row-major tensors (torch semantics) -/

/-- A torch tensor: a shape and the flat row-major data.  Mirrors the
contiguous representation that `x.contiguous()` / `x.reshape` operate on. -/
structure PyT where
  shape : List Nat
  data : List ℚ
  deriving DecidableEq, Repr

/-- Product of a shape list (number of elements). -/
def prodL (l : List Nat) : Nat := l.foldr (fun a b => a * b) 1

/-- Multi-index of the `n`-th element of a row-major tensor of shape `s`. -/
def unravel : List Nat → Nat → List Nat
  | [], _ => []
  | _ :: ss, n => n / prodL ss :: unravel ss (n % prodL ss)

/-- Row-major linear position of multi-index `ix` in shape `s`. -/
def ravel : List Nat → List Nat → Nat
  | _ :: ss, i :: is => i * prodL ss + ravel ss is
  | _, _ => 0

/-- Element of `t` at multi-index `ix` (0 out of range, never reached on
well-formed indices). -/
def getI (t : PyT) (ix : List Nat) : ℚ := t.data.getD (ravel t.shape ix) 0

/-- Materialize a tensor of shape `s` from an index function. -/
def fromFun (s : List Nat) (f : List Nat → ℚ) : PyT :=
  ⟨s, (List.range (prodL s)).map (fun n => f (unravel s n))⟩

/-- Old multi-index corresponding to new multi-index `ix` under
`x.permute(p)`: new dimension `j` is old dimension `p[j]`. -/
def permOld (p ix : List Nat) (n : Nat) : List Nat :=
  (List.range n).map (fun k => ix.getD (p.findIdx (fun j => j == k)) 0)

/-- `x.permute(p).contiguous()` (torch `permute` followed by
materialization; `reshape` of a permuted tensor copies like this). -/
def permuteT (p : List Nat) (t : PyT) : PyT :=
  fromFun (p.map (fun j => t.shape.getD j 0))
    (fun ix => getI t (permOld p ix t.shape.length))

/-- `x.transpose(a, b).contiguous()`. -/
def transposeT (a b : Nat) (t : PyT) : PyT :=
  permuteT ((List.range t.shape.length).map
    (fun k => if k = a then b else if k = b then a else k)) t

/-- `x.reshape(s)` / `x.view(s)` on a materialized tensor: same flat data,
new shape.  (On a non-contiguous tensor torch `.view` raises instead of
copying; where the source does that we note it at the call site — the
reshape model is the most charitable reading.) -/
def reshapeT (s : List Nat) (t : PyT) : PyT := ⟨s, t.data⟩

/-! ## `Squeeze` (source lines 117-161) -/

/-- `Squeeze.squeeze_bchw` (lines 129-138), factor as `self.factor`:
`assert h % f == 0 and w % f == 0`, then
`x.transpose(3,1)`, `reshape(-1, h//f, f, w//f, f, c)`,
`permute(0,1,3,5,2,4)`, `reshape(-1, h//f, w//f, c*f*f)`,
`transpose(3,1)`.  The `-1` dimension is resolved as
numel / (product of the other dimensions), as torch does. -/
def Squeeze.squeeze_bchw (factor : Nat) (t : PyT) : Except Err PyT :=
  match t.shape with
  | [_, c, h, w] =>
    if h % factor = 0 ∧ w % factor = 0 then
      let x1 := transposeT 3 1 t
      let x2 := reshapeT
        [x1.data.length / (h / factor * factor * (w / factor) * factor * c),
         h / factor, factor, w / factor, factor, c] x1
      let x3 := permuteT [0, 1, 3, 5, 2, 4] x2
      let x4 := reshapeT
        [x3.data.length / (h / factor * (w / factor) * (c * factor * factor)),
         h / factor, w / factor, c * factor * factor] x3
      Except.ok (transposeT 3 1 x4)
    else Except.error Err.assertionError
  | _ => Except.error Err.runtimeError

/-- `Squeeze.unsqueeze_bchw` (lines 140-149):
`assert c >= 4 and c % 4 == 0` (the bound is written with the literal `4`,
not `factor ** 2`), then `x.transpose(3,1)`,
`view(-1, h, w, c//f**2, f, f)`, `permute(0,1,4,2,5,3)`,
`view(-1, h*w, w*f, c//f**2)`, `transpose(3,1)`.
Note the second `view` target really is `(-1, h*w, w*factor, c//factor**2)`
in the source (line 148) — `h*w` where an inverse reshape needs
`h*factor` — and it is applied to a permuted (non-contiguous) tensor, on
which torch `.view` raises a RuntimeError; we model it as the charitable
flat reshape, which still produces the wrong shape. -/
def Squeeze.unsqueeze_bchw (factor : Nat) (t : PyT) : Except Err PyT :=
  match t.shape with
  | [_, c, h, w] =>
    if 4 ≤ c ∧ c % 4 = 0 then
      let x1 := transposeT 3 1 t
      let x2 := reshapeT
        [x1.data.length / (h * w * (c / (factor * factor)) * factor * factor),
         h, w, c / (factor * factor), factor, factor] x1
      let x3 := permuteT [0, 1, 4, 2, 5, 3] x2
      let x4 := reshapeT
        [x3.data.length / (h * w * (w * factor) * (c / (factor * factor))),
         h * w, w * factor, c / (factor * factor)] x3
      Except.ok (transposeT 3 1 x4)
    else Except.error Err.assertionError
  | _ => Except.error Err.runtimeError

/-- `Squeeze.forward_and_jacobian` (lines 151-155): raises
NotImplementedError unless the input is 4-D, then squeezes; the objective
is untouched. -/
def Squeeze.forward_and_jacobian (factor : Nat) (t : PyT) (o : ℚ) :
    Except Err (PyT × ℚ) :=
  if t.shape.length = 4 then
    (Squeeze.squeeze_bchw factor t).map (fun y => (y, o))
  else Except.error Err.notImplemented

/-- `Squeeze.reverse_and_jacobian` (lines 157-161). -/
def Squeeze.reverse_and_jacobian (factor : Nat) (t : PyT) (o : ℚ) :
    Except Err (PyT × ℚ) :=
  if t.shape.length = 4 then
    (Squeeze.unsqueeze_bchw factor t).map (fun y => (y, o))
  else Except.error Err.notImplemented

/-- Decidable check that an `Except` result is `ok` and equal to `y`. -/
def eqOkB (r : Except Err (PyT × ℚ)) (y : PyT × ℚ) : Bool :=
  match r with
  | Except.ok p => decide (p = y)
  | Except.error _ => false

/-- A 4-D input with `h = w = 2`, divisible by the squeeze factor 2. -/
def x2in : PyT := ⟨[1, 1, 2, 2], [1, 2, 3, 4]⟩

/-- Claim C2: the claim asserts that for every 4-D array whose height and
width are divisible by the squeeze factor, `Squeeze`'s reverse applied to
`Squeeze`'s forward returns the array bit-identically.  This fails on the
code: `unsqueeze_bchw`'s second `view` target is
`(-1, h*w, w*factor, c//factor**2)` (line 148) instead of the inverse
reshape `(-1, h*factor, w*factor, c//factor**2)` (and in torch that
`.view` of a permuted tensor raises).  On the valid input `x2in` of shape
(1,1,2,2) the squeeze yields shape (1,4,1,1) and the unsqueeze then
returns a tensor of shape (2,1,2,1), so the round trip does not return
`x2in` (with the unchanged objective 0). -/
theorem c2_squeeze_unsqueeze_roundtrip_fails :
    eqOkB ((Squeeze.forward_and_jacobian 2 x2in 0).bind
      (fun yo => Squeeze.reverse_and_jacobian 2 yo.1 yo.2)) (x2in, 0) = false := by
  decide

/-! ## Function tensors for the algebraic layers -/

/-- A 4-D tensor `(batch, channel, height, width)` as an index function. -/
abbrev Ten (bs c h w : Nat) : Type := Fin bs → Fin c → Fin h → Fin w → ℚ

/-- First half of `torch.chunk(x, 2, dim=1)` on an even channel count. -/
def chunk1 {bs m h w : Nat} (x : Ten bs (m + m) h w) : Ten bs m h w :=
  fun b i p q => x b (Fin.castAdd m i) p q

/-- Second half of `torch.chunk(x, 2, dim=1)` on an even channel count. -/
def chunk2 {bs m h w : Nat} (x : Ten bs (m + m) h w) : Ten bs m h w :=
  fun b i p q => x b (Fin.natAdd m i) p q

/-- `torch.cat([u, v], dim=1)`. -/
def cat2 {bs m h w : Nat} (u v : Ten bs m h w) : Ten bs (m + m) h w :=
  fun b i p q => Fin.addCases (fun i1 => u b i1 p q) (fun i2 => v b i2 p q) i

/-- Even-indexed channels `t[:, 0::2]` of a tensor with `2m` channels. -/
def evenCh {bs m h w : Nat} (t : Ten bs (m + m) h w) : Ten bs m h w :=
  fun b i p q => t b ⟨2 * i.val, by have hi := i.isLt; omega⟩ p q

/-- Odd-indexed channels `t[:, 1::2]` of a tensor with `2m` channels. -/
def oddCh {bs m h w : Nat} (t : Ten bs (m + m) h w) : Ten bs m h w :=
  fun b i p q => t b ⟨2 * i.val + 1, by have hi := i.isLt; omega⟩ p q

/-- `torch.sum` over every element of a tensor. -/
def sumT {bs c h w : Nat} (t : Ten bs c h w) : ℚ :=
  ∑ b, ∑ i, ∑ p, ∑ q, t b i p q

/-- The all-zero tensor, `torch.zeros_like`. -/
def zerosT {bs c h w : Nat} : Ten bs c h w := fun _ _ _ _ => 0

@[simp] theorem chunk1_cat2 {bs m h w : Nat} (u v : Ten bs m h w) :
    chunk1 (cat2 u v) = u := by
  funext b i p q
  simp only [chunk1, cat2, Fin.addCases_left]

@[simp] theorem chunk2_cat2 {bs m h w : Nat} (u v : Ten bs m h w) :
    chunk2 (cat2 u v) = v := by
  funext b i p q
  simp only [chunk2, cat2, Fin.addCases_right]

/-! ## `Invertible1x1Conv` (source lines 82-109) -/

/-- A 1x1 convolution with weight matrix `W` (`F.conv2d(x, W)` with a
`(c, c, 1, 1)` kernel, no bias, stride 1, no padding): at every spatial
position the channel vector is multiplied by `W`. -/
def conv1x1 {bs c h w : Nat} (W : Matrix (Fin c) (Fin c) ℚ) (x : Ten bs c h w) :
    Ten bs c h w :=
  fun b j p q => ∑ i, W j i * x b i p q

/-- `torch.inverse` of a square matrix, modelled by the adjugate formula
(which agrees with the matrix inverse whenever the determinant is
nonzero, the only case where `torch.inverse` returns). -/
def matInv {n : Nat} (W : Matrix (Fin n) (Fin n) ℚ) : Matrix (Fin n) (Fin n) ℚ :=
  (W.det)⁻¹ • W.adjugate

/-- `Invertible1x1Conv.forward_and_jacobian` (lines 96-101):
`dlogdet = torch.det(self.weight.squeeze()).abs().log() * x.size(-2) * x.size(-1)`,
`objective += dlogdet`, `output = F.conv2d(x, self.weight, ...)`.
`plog` is the abstract logarithm; `self.weight.squeeze()` is the `(c, c)`
matrix `W`. -/
def Invertible1x1Conv.forward_and_jacobian (plog : ℚ → ℚ) {bs c h w : Nat}
    (W : Matrix (Fin c) (Fin c) ℚ) (x : Ten bs c h w) (o : ℚ) :
    Ten bs c h w × ℚ :=
  (conv1x1 W x, o + plog (abs W.det) * (h : ℚ) * (w : ℚ))

/-- `Invertible1x1Conv.reverse_and_jacobian` (lines 103-109): the same
`dlogdet` is subtracted and the convolution is applied with
`torch.inverse(self.weight.squeeze())`. -/
def Invertible1x1Conv.reverse_and_jacobian (plog : ℚ → ℚ) {bs c h w : Nat}
    (W : Matrix (Fin c) (Fin c) ℚ) (x : Ten bs c h w) (o : ℚ) :
    Ten bs c h w × ℚ :=
  (conv1x1 (matInv W) x, o - plog (abs W.det) * (h : ℚ) * (w : ℚ))

theorem matInv_eq_inv {n : Nat} (W : Matrix (Fin n) (Fin n) ℚ) :
    matInv W = W⁻¹ := by
  unfold matInv
  rw [Matrix.inv_def, Ring.inverse_eq_inv]

/-- Claim C3: `Invertible1x1Conv.forward_and_jacobian` returns the 1x1
convolution of `x` with `W` and adds `log |det W| * h * w` to the
objective; `reverse_and_jacobian` applies the convolution with the
inverse of `W` and subtracts exactly the same quantity, so reverse after
forward restores `(x, o)` exactly (for an invertible weight). -/
theorem c3_invertible_conv_jacobian (plog : ℚ → ℚ) {bs c h w : Nat}
    (W : Matrix (Fin c) (Fin c) ℚ) (x : Ten bs c h w) (o : ℚ)
    (hW : W.det ≠ 0) :
    Invertible1x1Conv.forward_and_jacobian plog W x o
        = (conv1x1 W x, o + plog (abs W.det) * (h : ℚ) * (w : ℚ))
    ∧ Invertible1x1Conv.reverse_and_jacobian plog W x o
        = (conv1x1 W⁻¹ x, o - plog (abs W.det) * (h : ℚ) * (w : ℚ))
    ∧ Invertible1x1Conv.reverse_and_jacobian plog W
        (Invertible1x1Conv.forward_and_jacobian plog W x o).1
        (Invertible1x1Conv.forward_and_jacobian plog W x o).2 = (x, o) := by
  have hWi : matInv W * W = 1 := by
    rw [matInv_eq_inv]
    exact Matrix.nonsing_inv_mul W (isUnit_iff_ne_zero.mpr hW)
  refine ⟨rfl, ?_, ?_⟩
  · rw [Invertible1x1Conv.reverse_and_jacobian, matInv_eq_inv]
  · unfold Invertible1x1Conv.reverse_and_jacobian Invertible1x1Conv.forward_and_jacobian
    simp only [Prod.mk.injEq]
    constructor
    · funext b j p q
      show (∑ k, matInv W j k * conv1x1 W x b k p q) = x b j p q
      have step1 : ∀ k, matInv W j k * conv1x1 W x b k p q
          = ∑ i, matInv W j k * W k i * x b i p q := by
        intro k
        rw [conv1x1, Finset.mul_sum]
        exact Finset.sum_congr rfl (fun i _ => by ring)
      rw [Finset.sum_congr rfl (fun k _ => step1 k), Finset.sum_comm]
      have step2 : ∀ i, (∑ k, matInv W j k * W k i * x b i p q)
          = (matInv W * W) j i * x b i p q := by
        intro i
        rw [Matrix.mul_apply, Finset.sum_mul]
      rw [Finset.sum_congr rfl (fun i _ => step2 i), hWi]
      simp [Matrix.one_apply, ite_mul]
    · ring

/-- A concrete invertible weight for the witness: the identity matrix. -/
def wConv : Matrix (Fin 2) (Fin 2) ℚ := 1

/-- A concrete input tensor for the C3 witness. -/
def xConv : Ten 1 2 1 1 := fun _ _ _ _ => 3

/-- Witness for C3 at `W = 1`, `x = xConv`, `o = 5`: the determinant
hypothesis holds and the round trip restores `(xConv, 5)`. -/
theorem c3_invertible_conv_jacobian_witness :
    wConv.det ≠ 0
    ∧ Invertible1x1Conv.reverse_and_jacobian (fun q => q) wConv
        (Invertible1x1Conv.forward_and_jacobian (fun q => q) wConv xConv 5).1
        (Invertible1x1Conv.forward_and_jacobian (fun q => q) wConv xConv 5).2
      = (xConv, 5) :=
  ⟨by simp [wConv],
   (c3_invertible_conv_jacobian (fun q => q) wConv xConv 5 (by simp [wConv])).2.2⟩

/-! ## Coupling layers (source lines 244-289)

`torch.chunk(x, 2, dim=1)` returns views into the caller's tensor, and the
coupling layers update the second view in place (`z2 += ...`, `z2 *= ...`,
`z2 /= ...`, `z2 -= ...`), which writes through to the caller's storage.
Each embedded method therefore returns both the `(output, objective)` pair
the source returns and the value the caller's array holds after the call:
the first channel half is untouched and the second half now holds the
transformed values. -/

/-- `AdditiveCoupling.forward_and_jacobian` (lines 250-253):
`z1, z2 = chunk(x)`, `z2 += NN(z1)` (in place), returns
`(cat([z1, z2]), objective)`; `f` is the external `NN`. The `.2`
component is the caller's array after the call. -/
def AdditiveCoupling.forward_and_jacobian {bs m h w : Nat}
    (f : Ten bs m h w → Ten bs m h w) (x : Ten bs (m + m) h w) (o : ℚ) :
    (Ten bs (m + m) h w × ℚ) × Ten bs (m + m) h w :=
  ((cat2 (chunk1 x) (fun b i p q => chunk2 x b i p q + f (chunk1 x) b i p q), o),
   cat2 (chunk1 x) (fun b i p q => chunk2 x b i p q + f (chunk1 x) b i p q))

/-- `AdditiveCoupling.reverse_and_jacobian` (lines 255-258):
`z2 -= NN(z1)` (in place). -/
def AdditiveCoupling.reverse_and_jacobian {bs m h w : Nat}
    (f : Ten bs m h w → Ten bs m h w) (x : Ten bs (m + m) h w) (o : ℚ) :
    (Ten bs (m + m) h w × ℚ) × Ten bs (m + m) h w :=
  ((cat2 (chunk1 x) (fun b i p q => chunk2 x b i p q - f (chunk1 x) b i p q), o),
   cat2 (chunk1 x) (fun b i p q => chunk2 x b i p q - f (chunk1 x) b i p q))

/-- `AffineCoupling.forward_and_jacobian` (lines 267-278):
`z1, z2 = chunk(x)`, `h = NN(z1)`, `shift = h[:, 0::2]`,
`scale = sigmoid(h[:, 1::2] + 2.)`, `z2 += shift`, `z2 *= scale` (both in
place, so the second half becomes `(z2 + shift) * scale`),
`objective += sum(log(scale))`, returns `cat([z1, z2])`.  `plog` and
`psig` are the abstract `log` and `sigmoid`; `f` is the external `NN`
with doubled output channels.  The `.2` component is the caller's array
after the call. -/
def AffineCoupling.forward_and_jacobian (plog psig : ℚ → ℚ) {bs m h w : Nat}
    (f : Ten bs m h w → Ten bs (m + m) h w) (x : Ten bs (m + m) h w) (o : ℚ) :
    (Ten bs (m + m) h w × ℚ) × Ten bs (m + m) h w :=
  ((cat2 (chunk1 x)
      (fun b i p q => (chunk2 x b i p q + evenCh (f (chunk1 x)) b i p q)
        * psig (oddCh (f (chunk1 x)) b i p q + 2)),
    o + sumT (fun b i p q => plog (psig (oddCh (f (chunk1 x)) b i p q + 2)))),
   cat2 (chunk1 x)
      (fun b i p q => (chunk2 x b i p q + evenCh (f (chunk1 x)) b i p q)
        * psig (oddCh (f (chunk1 x)) b i p q + 2)))

/-- `AffineCoupling.reverse_and_jacobian` (lines 280-289): `z2 /= scale`,
`z2 -= shift` (in place, so the second half becomes `z2 / scale - shift`),
`objective -= sum(log(scale))`. -/
def AffineCoupling.reverse_and_jacobian (plog psig : ℚ → ℚ) {bs m h w : Nat}
    (f : Ten bs m h w → Ten bs (m + m) h w) (x : Ten bs (m + m) h w) (o : ℚ) :
    (Ten bs (m + m) h w × ℚ) × Ten bs (m + m) h w :=
  ((cat2 (chunk1 x)
      (fun b i p q => chunk2 x b i p q / psig (oddCh (f (chunk1 x)) b i p q + 2)
        - evenCh (f (chunk1 x)) b i p q),
    o - sumT (fun b i p q => plog (psig (oddCh (f (chunk1 x)) b i p q + 2)))),
   cat2 (chunk1 x)
      (fun b i p q => chunk2 x b i p q / psig (oddCh (f (chunk1 x)) b i p q + 2)
        - evenCh (f (chunk1 x)) b i p q))

/-- Claim C4: on an even-channel input, `AffineCoupling`'s forward splits
the channels into halves `z1, z2`, takes `shift` as the even-indexed and
the pre-scale as the odd-indexed channels of `f(z1)`,
`scale = sigmoid(pre_scale + 2)`, outputs `[z1, (z2 + shift) * scale]` and
adds `sum(log scale)` to the objective; the reverse computes
`z2 / scale - shift` and subtracts the same sum — in particular the
objective contributions of reverse-after-forward cancel exactly. -/
theorem c4_affine_coupling (plog psig : ℚ → ℚ) {bs m h w : Nat}
    (f : Ten bs m h w → Ten bs (m + m) h w) (x : Ten bs (m + m) h w) (o : ℚ) :
    (AffineCoupling.forward_and_jacobian plog psig f x o).1.1
        = cat2 (chunk1 x) (fun b i p q =>
            (chunk2 x b i p q + evenCh (f (chunk1 x)) b i p q)
              * psig (oddCh (f (chunk1 x)) b i p q + 2))
    ∧ (AffineCoupling.forward_and_jacobian plog psig f x o).1.2
        = o + sumT (fun b i p q => plog (psig (oddCh (f (chunk1 x)) b i p q + 2)))
    ∧ (AffineCoupling.reverse_and_jacobian plog psig f x o).1.1
        = cat2 (chunk1 x) (fun b i p q =>
            chunk2 x b i p q / psig (oddCh (f (chunk1 x)) b i p q + 2)
              - evenCh (f (chunk1 x)) b i p q)
    ∧ (AffineCoupling.reverse_and_jacobian plog psig f x o).1.2
        = o - sumT (fun b i p q => plog (psig (oddCh (f (chunk1 x)) b i p q + 2)))
    ∧ (AffineCoupling.reverse_and_jacobian plog psig f
          (AffineCoupling.forward_and_jacobian plog psig f x o).1.1
          (AffineCoupling.forward_and_jacobian plog psig f x o).1.2).1.2 = o := by
  refine ⟨rfl, rfl, rfl, rfl, ?_⟩
  simp only [AffineCoupling.forward_and_jacobian, AffineCoupling.reverse_and_jacobian,
    chunk1_cat2]
  ring

/-- The external network used for the C10 counterexample: constantly 1. -/
def fOne : Ten 1 1 1 1 → Ten 1 1 1 1 := fun _ _ _ _ _ => 1

/-- The all-zero caller array used for the C10 counterexample. -/
def xZero : Ten 1 (1 + 1) 1 1 := fun _ _ _ _ => 0

/-- Claim C10 counterexample: `AdditiveCoupling.forward_and_jacobian` does
not leave the caller's array unchanged.  With `NN = fOne` and the zero
input `xZero`, after the call the caller's array holds 1 in its second
channel (because `z2 += NN(z1)` adds in place through the `torch.chunk`
view), so it differs from `xZero`. -/
theorem c10_coupling_counterexample :
    (AdditiveCoupling.forward_and_jacobian fOne xZero 0).2 ≠ xZero := by
  intro hEq
  have h1 := congrFun (congrFun (congrFun (congrFun hEq 0) (Fin.natAdd 1 0)) 0) 0
  simp only [AdditiveCoupling.forward_and_jacobian, cat2, Fin.addCases_right,
    chunk2, fOne, xZero] at h1
  norm_num at h1

/-- Claim C10 amended: both coupling layers, in both directions, return
the correct transformed array but mutate the caller's array in place:
after the call the caller's array equals the returned array (its second
channel half has been overwritten with the transformed values through the
`torch.chunk` views), while its first channel half is unchanged. -/
theorem c10_coupling_mutates_in_place (plog psig : ℚ → ℚ) {bs m h w : Nat}
    (fA : Ten bs m h w → Ten bs m h w)
    (fF : Ten bs m h w → Ten bs (m + m) h w)
    (x : Ten bs (m + m) h w) (o : ℚ) :
    ((AdditiveCoupling.forward_and_jacobian fA x o).2
        = (AdditiveCoupling.forward_and_jacobian fA x o).1.1
      ∧ chunk1 (AdditiveCoupling.forward_and_jacobian fA x o).2 = chunk1 x)
    ∧ ((AdditiveCoupling.reverse_and_jacobian fA x o).2
        = (AdditiveCoupling.reverse_and_jacobian fA x o).1.1
      ∧ chunk1 (AdditiveCoupling.reverse_and_jacobian fA x o).2 = chunk1 x)
    ∧ ((AffineCoupling.forward_and_jacobian plog psig fF x o).2
        = (AffineCoupling.forward_and_jacobian plog psig fF x o).1.1
      ∧ chunk1 (AffineCoupling.forward_and_jacobian plog psig fF x o).2 = chunk1 x)
    ∧ ((AffineCoupling.reverse_and_jacobian plog psig fF x o).2
        = (AffineCoupling.reverse_and_jacobian plog psig fF x o).1.1
      ∧ chunk1 (AffineCoupling.reverse_and_jacobian plog psig fF x o).2 = chunk1 x) := by
  refine ⟨⟨rfl, ?_⟩, ⟨rfl, ?_⟩, ⟨rfl, ?_⟩, ⟨rfl, ?_⟩⟩ <;>
    simp only [AdditiveCoupling.forward_and_jacobian,
      AdditiveCoupling.reverse_and_jacobian, AffineCoupling.forward_and_jacobian,
      AffineCoupling.reverse_and_jacobian, chunk1_cat2]

/-! ## `GaussianPrior` (source lines 204-236) -/

/-- `GaussianPrior.forward_and_jacobian` (lines 212-223):
`mean_and_logsd = torch.cat([zeros_like(x), zeros_like(x)], dim=1)` (a
`2c`-channel tensor), optionally passed through the learned head
`self.conv` (present when `args.learntop`), then
`mean, logsd = torch.chunk(mean_and_logsd, 2, 1)`,
`objective += gaussian_diag(mean, logsd).logp(x).sum()`, returns
`(None, objective)`.  The head is built by
`Conv2dZeroInit(input_shape[1], 2 * input_shape[1], 3, ...)` (line 208),
i.e. with `c` in-channels and `2c` out-channels — the `(in, out)`
parameter order of `Conv2dZeroInit` (absent `layers.py`) is pinned down
by `Split`'s own `Conv2dZeroInit(c // 2, c)` (line 173), whose output on
the `c // 2`-channel `z1` supplies mean and log-scale for the
`c // 2`-channel `z2` (lines 180-183).  Line 216 applies that head to the
`2c`-channel `mean_and_logsd`, a channel mismatch: with `args.learntop`
the convolution raises a RuntimeError and the forward pass never scores.
The channel count is typed `c + 1` so the mismatch `2(c+1) ≠ c+1` is
structural (the degenerate zero-channel tensor, where `2·0 = 0`, is
outside the model).  `glogp mean logsd v` is the abstract per-element
log-density of the diagonal Gaussian (`gaussian_diag` lives in the absent
`utils.py`; modelled from the spec: a diagonal Gaussian parameterized by
per-element mean and log-scale supporting `log_density`). -/
def GaussianPrior.forward_and_jacobian {bs c h w : Nat}
    (convHead : Option (Ten bs (c + 1) h w → Ten bs ((c + 1) + (c + 1)) h w))
    (glogp : ℚ → ℚ → ℚ → ℚ) (x : Ten bs (c + 1) h w) (o : ℚ) :
    Except Err (Option (Ten bs (c + 1) h w) × ℚ) :=
  match convHead with
  | some _ => Except.error Err.runtimeError
  | Option.none =>
    let ml : Ten bs ((c + 1) + (c + 1)) h w := cat2 zerosT zerosT
    Except.ok (Option.none,
      o + sumT (fun b i p q =>
        glogp (chunk1 ml b i p q) (chunk2 ml b i p q) (x b i p q)))

/-- The `reverse_and_jacobian` of `GaussianPrior` under the uniform
`Layer` call surface: the class defines its sampler under the name
`backward_and_jacobian` (line 225) and never overrides
`reverse_and_jacobian`, so the inherited `Layer.reverse_and_jacobian`
(lines 24-25) runs and raises NotImplementedError for every input. -/
def GaussianPrior.reverse_and_jacobian {bs c h w : Nat} :
    Option (Ten bs c h w) → ℚ → Except Err (Ten bs c h w × ℚ) :=
  fun _ _ => Except.error Err.notImplemented

/-- `GaussianPrior.backward_and_jacobian` (lines 225-236): asserts
`x is None` (AssertionError on a tensor input), and then evaluates
`torch.zeros_like(x)` with `x = None`, which raises a TypeError — so the
sampler itself never returns either. -/
def GaussianPrior.backward_and_jacobian {bs c h w : Nat} :
    Option (Ten bs c h w) → ℚ → Except Err (Ten bs c h w × ℚ) :=
  fun x _ =>
    match x with
    | some _ => Except.error Err.assertionError
    | Option.none => Except.error Err.typeError

/-- Claim C6: without the learned head the forward pass does add the
total diagonal-Gaussian log-density of `x` (scored at mean 0 and
log-scale 0) to the objective and returns `None` as the array; but with
`args.learntop` the forward pass itself raises a RuntimeError — the
zero-initialized head consumes `c` channels yet is applied to the
`2c`-channel `mean_and_logsd` — and the reverse under the uniform `Layer`
call surface does not draw a sample: it raises NotImplementedError for
every input because the sampler is misnamed `backward_and_jacobian`, and
that sampler itself fails on its `None` input
(`torch.zeros_like(None)`). -/
theorem c6_gaussian_prior_forward_scores_reverse_raises {bs c h w : Nat}
    (glogp : ℚ → ℚ → ℚ → ℚ) (x : Ten bs (c + 1) h w) (o : ℚ) :
    GaussianPrior.forward_and_jacobian Option.none glogp x o
        = Except.ok (Option.none,
            o + sumT (fun b i p q => glogp 0 0 (x b i p q)))
    ∧ (∀ convHead, GaussianPrior.forward_and_jacobian (some convHead) glogp x o
        = Except.error Err.runtimeError)
    ∧ (∀ v, @GaussianPrior.reverse_and_jacobian bs (c + 1) h w v o
        = Except.error Err.notImplemented)
    ∧ @GaussianPrior.backward_and_jacobian bs (c + 1) h w Option.none o
        = Except.error Err.typeError := by
  refine ⟨?_, fun convHead => rfl, fun v => rfl, rfl⟩
  simp only [GaussianPrior.forward_and_jacobian, chunk1_cat2, chunk2_cat2, zerosT]

/-! ## `BatchNorm` (source lines 308-371) -/

/-- The `reverse_and_jacobian` of `BatchNorm` under the uniform `Layer`
call surface: the class names its sampling-direction method `reverse`
(line 342) and never overrides `reverse_and_jacobian`, so the inherited
`Layer.reverse_and_jacobian` raise runs in every mode. -/
def BatchNorm.reverse_and_jacobian {bs c h w : Nat} :
    Option (Ten bs c h w) → ℚ → Except Err (Ten bs c h w × ℚ) :=
  fun _ _ => Except.error Err.notImplemented

/-- `BatchNorm.reverse` (lines 342-371): `assert not self.training`
(AssertionError in training mode); otherwise the input is viewed as
`(B, C, -1)` (3 dimensions, line 347), statistics and the un-normalized
output are computed, and then line 366 evaluates
`input.size(3)` on that 3-D view, which always raises an IndexError —
the method never returns. -/
def BatchNorm.reverse {bs c h w : Nat} (training : Bool)
    (_x : Ten bs c h w) (_o : ℚ) : Except Err (Ten bs c h w × ℚ) :=
  if training then Except.error Err.assertionError
  else Except.error Err.indexError

/-- Claim C8: through the uniform `Layer` protocol, `BatchNorm`'s reverse
raises NotImplementedError in every mode (the sampler is named `reverse`,
not `reverse_and_jacobian`), so the claimed equivalence "raises a
mode-misuse error iff training" fails; and even the `reverse` method
itself raises the mode-misuse AssertionError in training mode but an
IndexError (not a reconstruction) outside training mode. -/
theorem c8_batchnorm_reverse_unusable {bs c h w : Nat}
    (x : Ten bs c h w) (o : ℚ) :
    (∀ v, @BatchNorm.reverse_and_jacobian bs c h w v o
        = Except.error Err.notImplemented)
    ∧ BatchNorm.reverse true x o = Except.error Err.assertionError
    ∧ BatchNorm.reverse false x o = Except.error Err.indexError :=
  ⟨fun _v => rfl, rfl, rfl⟩

/-! ## `Split.reverse_and_jacobian` (source lines 194-201) and
`Reverse.__init__` (source lines 73-79) -/

/-- `Split.reverse_and_jacobian` (lines 194-201): its first statement is
`z1 = unsqueeze_bchw(x)` and the next is `pz = split2d_prior(z1)` — both
are bare module-level names (the actual functions are the methods
`self.unsqueeze_bchw` / `self.split2d_prior`), and neither name is
defined in the file, so Python raises a NameError before anything is
computed, for every input. -/
def Split.reverse_and_jacobian (_x : PyT) (_o : ℚ) : Except Err (PyT × ℚ) :=
  Except.error Err.nameError

/-- Claim C5: `Split.reverse_and_jacobian` never un-squeezes, recomputes
the prior, samples, or updates the objective — it raises a NameError on
every input because it calls its own methods without `self.`. -/
theorem c5_split_reverse_raises_name_error (x : PyT) (o : ℚ) :
    Split.reverse_and_jacobian x o = Except.error Err.nameError := rfl

/-- `Reverse.__init__` (lines 74-79): it first calls
`super(Reverse, self).__init__()` with no argument, but
`Shuffle.__init__(self, num_channels)` (line 53) requires the channel
count, so the call raises a TypeError at once; the following line would
also read the undefined name `num_channel` (a NameError).  Construction
therefore never produces a layer (were it to succeed it would store the
reversal permutation `np.arange(num_channels)[::-1]` as both `indices`
and `rev_indices`). -/
def Reverse.init (_numChannels : Nat) : Except Err (List Nat × List Nat) :=
  Except.error Err.typeError

/-- Claim C9: no `Reverse` layer can be constructed — `Reverse(n)` raises
a TypeError for every channel count, so there is no stored permutation to
compare with its inverse and no forward to apply twice. -/
theorem c9_reverse_layer_unconstructible (numChannels : Nat) :
    Reverse.init numChannels = Except.error Err.typeError := rfl

/-! ## Layer dispatch and assembly (source lines 17-44 and 379-431)

The model-level embedding: a `LayerK` value is one constructed layer (with
the data its constructor stored), and `kindRevAJ` is the dynamic dispatch
of `reverse_and_jacobian` on it — for classes that do not override the
method it is the inherited `Layer.reverse_and_jacobian` raise (lines
24-25).  `revGo` is `LayerList.reverse_and_jacobian` (lines 41-44):
the layers are applied in reversed list order, stopping at the first
exception.  Values are `Option PyT` because `GaussianPrior` returns and
expects `None`. -/

/-- Flat-tensor elementwise combination of two equal-shape tensors. -/
def zipPy (f : ℚ → ℚ → ℚ) (u v : PyT) : PyT :=
  fromFun u.shape (fun ix => f (getI u ix) (getI v ix))

/-- Flat-tensor elementwise map. -/
def mapPy (f : ℚ → ℚ) (t : PyT) : PyT := ⟨t.shape, t.data.map f⟩

/-- `torch.sum` over all elements of a flat tensor. -/
def sumPy (t : PyT) : ℚ := t.data.sum

/-- `torch.chunk(t, 2, dim=1)` on a flat 4-D tensor. -/
def chunkPy (t : PyT) : PyT × PyT :=
  match t.shape with
  | [bs, c, h, w] =>
    (fromFun [bs, c / 2, h, w] (fun ix => getI t ix),
     fromFun [bs, c / 2, h, w] (fun ix =>
       match ix with
       | [b, i, p, q] => getI t [b, c / 2 + i, p, q]
       | _ => 0))
  | _ => (t, t)

/-- `torch.cat([u, v], dim=1)` on flat 4-D tensors. -/
def catPy (u v : PyT) : PyT :=
  match u.shape with
  | [bs, c1, h, w] =>
    fromFun [bs, c1 + v.shape.getD 1 0, h, w] (fun ix =>
      match ix with
      | [b, i, p, q] => if i < c1 then getI u [b, i, p, q] else getI v [b, i - c1, p, q]
      | _ => 0)
  | _ => u

/-- `t[:, offset::2]` channel slice of a flat 4-D tensor. -/
def sliceStep2 (offset : Nat) (t : PyT) : PyT :=
  match t.shape with
  | [bs, c, h, w] =>
    fromFun [bs, (c - offset + 1) / 2, h, w] (fun ix =>
      match ix with
      | [b, i, p, q] => getI t [b, offset + 2 * i, p, q]
      | _ => 0)
  | _ => t

/-- `t[:, ind]` channel indexing of a flat 4-D tensor (`Shuffle`). -/
def indexCh (ind : List Nat) (t : PyT) : PyT :=
  match t.shape with
  | [bs, _, h, w] =>
    fromFun [bs, ind.length, h, w] (fun ix =>
      match ix with
      | [b, i, p, q] => getI t [b, ind.getD i 0, p, q]
      | _ => 0)
  | _ => t

/-- One constructed layer of the model, carrying the data its constructor
stored: `Squeeze` its factor, `Shuffle` its permutation and inverse,
`BatchNorm` its training flag, the couplings their external `NN`, and a
`LayerList` its sub-layers (`RevNet` and `RevNetStep` are `LayerList`s). -/
inductive LayerK where
  | squeezeL (factor : Nat)
  | splitL
  | gaussianPriorL
  | shuffleL (ind rev : List Nat)
  | batchnormL (training : Bool)
  | additiveL (f : PyT → PyT)
  | affineL (f : PyT → PyT)
  | llist (ls : List LayerK)

mutual

/-- Dispatch of `reverse_and_jacobian` on a constructed layer.
`Squeeze` (lines 157-161) unsqueezes; `Split` raises the NameError of
lines 195-196; `GaussianPrior` and `BatchNorm` have no
`reverse_and_jacobian` method, so the inherited `Layer` raise runs
(lines 24-25); `Shuffle` (lines 68-69) indexes channels with
`rev_indices`; the couplings (lines 255-258 and 280-289) invert their
halves; a `LayerList` (lines 41-44) recurses.  A `None` value reaching a
tensor-consuming layer is an attribute error on `None`, modelled as a
TypeError.  `plog` / `psig` are the abstract `log` / `sigmoid`. -/
def kindRevAJ (plog psig : ℚ → ℚ) :
    LayerK → Option PyT → ℚ → Except Err (Option PyT × ℚ)
  | LayerK.squeezeL f, some t, o =>
      (Squeeze.reverse_and_jacobian f t o).map (fun yo => (some yo.1, yo.2))
  | LayerK.squeezeL _, Option.none, _ => Except.error Err.typeError
  | LayerK.splitL, _, _ => Except.error Err.nameError
  | LayerK.gaussianPriorL, _, _ => Except.error Err.notImplemented
  | LayerK.shuffleL _ rev, some t, o => Except.ok (some (indexCh rev t), o)
  | LayerK.shuffleL _ _, Option.none, _ => Except.error Err.typeError
  | LayerK.batchnormL _, _, _ => Except.error Err.notImplemented
  | LayerK.additiveL f, some t, o =>
      Except.ok (some (catPy (chunkPy t).1
        (zipPy (fun a b => a - b) (chunkPy t).2 (f (chunkPy t).1))), o)
  | LayerK.additiveL _, Option.none, _ => Except.error Err.typeError
  | LayerK.affineL f, some t, o =>
      Except.ok (some (catPy (chunkPy t).1
        (zipPy (fun a b => a - b)
          (zipPy (fun a s => a / s) (chunkPy t).2
            (mapPy (fun a => psig (a + 2)) (sliceStep2 1 (f (chunkPy t).1))))
          (sliceStep2 0 (f (chunkPy t).1)))),
        o - sumPy (mapPy plog (mapPy (fun a => psig (a + 2))
          (sliceStep2 1 (f (chunkPy t).1)))))
  | LayerK.affineL _, Option.none, _ => Except.error Err.typeError
  | LayerK.llist ls, v, o => revGo plog psig ls v o

/-- `LayerList.reverse_and_jacobian` (lines 41-44): `for layer in
reversed(self.layers)` — the recursion applies the tail (in reversed
order) first and the head layer last, stopping at the first exception. -/
def revGo (plog psig : ℚ → ℚ) :
    List LayerK → Option PyT → ℚ → Except Err (Option PyT × ℚ)
  | [], v, o => Except.ok (v, o)
  | k :: ks, v, o =>
    match revGo plog psig ks v o with
    | Except.error e => Except.error e
    | Except.ok vo => kindRevAJ plog psig k vo.1 vo.2

end

/-- `LayerList.reverse_and_jacobian` on a layer list. -/
def LayerList.reverse_and_jacobian (plog psig : ℚ → ℚ) (ls : List LayerK)
    (v : Option PyT) (o : ℚ) : Except Err (Option PyT × ℚ) :=
  revGo plog psig ls v o

/-- The architecture configuration (`args`) consumed by the assembly:
`norm` is a Python value that may be `None`, the variant selectors are
strings, `depth` and `n_levels` are the stack sizes, `learntop` selects
the learned prior head. -/
structure FlowArgs where
  norm : Option String
  permutation : String
  coupling : String
  depth : Nat
  n_levels : Nat
  learntop : Bool

/-- The normalization part of `RevNetStep.__init__` (lines 384-389):
`actnorm` constructs `ActNorm()`, which raises NotImplementedError (line
299); `batchnorm` constructs a `BatchNorm` (training mode on, the
`nn.Module` default); any other truthy value fails the `assert not
args.norm`; `None` (or an empty string) adds no layer. -/
def normLayers (a : FlowArgs) : Except Err (List LayerK) :=
  match a.norm with
  | Option.none => Except.ok []
  | some s =>
    if s = "actnorm" then Except.error Err.notImplemented
    else if s = "batchnorm" then Except.ok [LayerK.batchnormL true]
    else if s = "" then Except.ok []
    else Except.error Err.assertionError

/-- The permutation part of `RevNetStep.__init__` (lines 391-398):
`reverse` constructs `Reverse(num_channels)`, which raises a TypeError
(see `Reverse.init`); `shuffle` constructs a `Shuffle` whose random
permutation and its inverse are supplied by the ambient generator
`mkPerm` (modelled from the spec: the source draws them from the ambient
`np.random` state, lines 55-59); `conv` constructs `Invertible1x1Conv`,
whose `__init__` chain (`Layer.__init__`'s bare `super().__init__()`,
line 19) reaches `nn.Conv2d.__init__` with no arguments and raises a
TypeError; anything else raises ValueError (line 398). -/
def permLayers (mkPerm : Nat → List Nat × List Nat) (numChannels : Nat)
    (a : FlowArgs) : Except Err (List LayerK) :=
  if a.permutation = "reverse" then Except.error Err.typeError
  else if a.permutation = "shuffle" then
    Except.ok [LayerK.shuffleL (mkPerm numChannels).1 (mkPerm numChannels).2]
  else if a.permutation = "conv" then Except.error Err.typeError
  else Except.error Err.valueError

/-- The coupling part of `RevNetStep.__init__` (lines 400-405):
`additive` and `affine` construct couplings around the external `NN`
(supplied by `mkNN`, modelled from the spec: an opaque differentiable
function given only by its channel contract); anything else raises
ValueError (line 405). -/
def coupLayers (mkNN : Nat → Nat → PyT → PyT) (numChannels : Nat)
    (a : FlowArgs) : Except Err (List LayerK) :=
  if a.coupling = "additive" then
    Except.ok [LayerK.additiveL (mkNN (numChannels / 2) (numChannels / 2))]
  else if a.coupling = "affine" then
    Except.ok [LayerK.affineL (mkNN (numChannels / 2) numChannels)]
  else Except.error Err.valueError

/-- `RevNetStep.__init__` (lines 379-407): the three parts are evaluated
in order — normalization, then permutation, then coupling — each
propagating its exception, and the step's layer list is their
concatenation in that order. -/
def RevNetStep.init (mkPerm : Nat → List Nat × List Nat)
    (mkNN : Nat → Nat → PyT → PyT) (numChannels : Nat) (a : FlowArgs) :
    Except Err (List LayerK) :=
  match normLayers a with
  | Except.error e => Except.error e
  | Except.ok np =>
    match permLayers mkPerm numChannels a with
    | Except.error e => Except.error e
    | Except.ok pp =>
      match coupLayers mkNN numChannels a with
      | Except.error e => Except.error e
      | Except.ok cp => Except.ok (np ++ pp ++ cp)

/-- The step list of `RevNet.__init__` (line 414): `args.depth` copies of
`RevNetStep(c, args)`. -/
def stepsList (mkPerm : Nat → List Nat × List Nat)
    (mkNN : Nat → Nat → PyT → PyT) (numChannels : Nat) (a : FlowArgs) :
    Nat → Except Err (List LayerK)
  | 0 => Except.ok []
  | Nat.succ n =>
    match RevNetStep.init mkPerm mkNN numChannels a with
    | Except.error e => Except.error e
    | Except.ok st =>
      match stepsList mkPerm mkNN numChannels a n with
      | Except.error e => Except.error e
      | Except.ok rest => Except.ok (LayerK.llist st :: rest)

/-- `RevNet.__init__` (lines 410-414): a `LayerList` of `depth` steps. -/
def RevNet.init (mkPerm : Nat → List Nat × List Nat)
    (mkNN : Nat → Nat → PyT → PyT) (numChannels : Nat) (a : FlowArgs) :
    Except Err LayerK :=
  match stepsList mkPerm mkNN numChannels a a.depth with
  | Except.error e => Except.error e
  | Except.ok steps => Except.ok (LayerK.llist steps)

/-- The level loop of `Codec.__init__` (lines 422-427), tracking the
channel count of the shape propagated at construction (`Squeeze` and
`Split` multiply the channel count by 4 and 2 respectively; only the
channel count feeds layer construction): each level adds a `RevNet` at
the current channel count and, on all but the last level, a `Split`. -/
def codecLevels (mkPerm : Nat → List Nat × List Nat)
    (mkNN : Nat → Nat → PyT → PyT) (a : FlowArgs) :
    Nat → Nat → Except Err (List LayerK)
  | 0, _ => Except.ok []
  | Nat.succ n, numChannels =>
    match RevNet.init mkPerm mkNN numChannels a with
    | Except.error e => Except.error e
    | Except.ok rn =>
      if n = 0 then Except.ok [rn]
      else
        match codecLevels mkPerm mkNN a n (numChannels * 2) with
        | Except.error e => Except.error e
        | Except.ok rest => Except.ok (rn :: LayerK.splitL :: rest)

/-- `Codec.__init__` (lines 418-430): an initial `Squeeze` (default
factor 2, channel count times 4), the levels, and the terminal
`GaussianPrior` appended last. -/
def Codec.init (mkPerm : Nat → List Nat × List Nat)
    (mkNN : Nat → Nat → PyT → PyT) (numChannels : Nat) (a : FlowArgs) :
    Except Err (List LayerK) :=
  match codecLevels mkPerm mkNN a a.n_levels (numChannels * 4) with
  | Except.error e => Except.error e
  | Except.ok body =>
    Except.ok (LayerK.squeezeL 2 :: body ++ [LayerK.gaussianPriorL])

theorem revGo_last_raises (plog psig : ℚ → ℚ) (l : List LayerK)
    (k : LayerK) (v : Option PyT) (o : ℚ)
    (hk : ∀ v2 o2, kindRevAJ plog psig k v2 o2 = Except.error Err.notImplemented) :
    revGo plog psig (l ++ [k]) v o = Except.error Err.notImplemented := by
  induction l with
  | nil => simp [revGo, hk]
  | cons a as ih => simp [revGo, ih]

/-- Claim C1: the claimed round-trip identity fails for the composed
`Codec` model: whenever construction succeeds, `reverse_and_jacobian`
raises NotImplementedError on every input (in particular on the output of
`forward_and_jacobian`), because the layer list ends with the terminal
`GaussianPrior`, the reversed iteration visits it first, and its sampler
is named `backward_and_jacobian` so the inherited
`Layer.reverse_and_jacobian` raise is dispatched. -/
theorem c1_codec_reverse_raises (plog psig : ℚ → ℚ)
    (mkPerm : Nat → List Nat × List Nat) (mkNN : Nat → Nat → PyT → PyT)
    (numChannels : Nat) (a : FlowArgs) (ls : List LayerK)
    (hok : Codec.init mkPerm mkNN numChannels a = Except.ok ls)
    (v : Option PyT) (o : ℚ) :
    LayerList.reverse_and_jacobian plog psig ls v o
      = Except.error Err.notImplemented := by
  unfold Codec.init at hok
  cases hb : codecLevels mkPerm mkNN a a.n_levels (numChannels * 4) with
  | error e => rw [hb] at hok; exact absurd hok (by simp)
  | ok body =>
    rw [hb] at hok
    have hls : ls = (LayerK.squeezeL 2 :: body) ++ [LayerK.gaussianPriorL] := by
      cases hok; rfl
    rw [hls]
    exact revGo_last_raises plog psig (LayerK.squeezeL 2 :: body)
      LayerK.gaussianPriorL v o (fun v2 o2 => rfl)

/-- A deterministic stand-in for the ambient permutation generator. -/
def wPerm : Nat → List Nat × List Nat := fun n => (List.range n, List.range n)

/-- A stand-in for the external `NN` factory (identity network). -/
def wNN : Nat → Nat → PyT → PyT := fun _ _ t => t

/-- A constructible configuration: no normalization, shuffle permutation,
additive coupling, depth 1, two levels. -/
def wArgs : FlowArgs := ⟨Option.none, "shuffle", "additive", 1, 2, false⟩

/-- The layer list `Codec.init` produces for `wArgs` with one input
channel: squeeze, a one-step `RevNet` at 4 channels, the split, a
one-step `RevNet` at 8 channels, and the terminal prior. -/
def wLayers : List LayerK :=
  [LayerK.squeezeL 2,
   LayerK.llist [LayerK.llist
     [LayerK.shuffleL (List.range 4) (List.range 4), LayerK.additiveL (wNN 2 2)]],
   LayerK.splitL,
   LayerK.llist [LayerK.llist
     [LayerK.shuffleL (List.range 8) (List.range 8), LayerK.additiveL (wNN 4 4)]],
   LayerK.gaussianPriorL]

/-- Witness for C1: the concrete configuration `wArgs` constructs the
layer list `wLayers`, and the reverse pass on it raises
NotImplementedError. -/
theorem c1_codec_reverse_raises_witness :
    Codec.init wPerm wNN 1 wArgs = Except.ok wLayers
    ∧ LayerList.reverse_and_jacobian (fun q => q) (fun q => q) wLayers
        Option.none 0 = Except.error Err.notImplemented :=
  ⟨rfl, c1_codec_reverse_raises (fun q => q) (fun q => q) wPerm wNN 1 wArgs
    wLayers rfl Option.none 0⟩

/-- True when an `Except` result is an exception. -/
def isErrE {α : Type} (r : Except Err α) : Bool :=
  match r with
  | Except.error _ => true
  | Except.ok _ => false

/-- True for a constructed permutation layer. -/
def isPermK (k : LayerK) : Bool :=
  match k with
  | LayerK.shuffleL _ _ => true
  | _ => false

/-- True for a constructed coupling layer. -/
def isCoupK (k : LayerK) : Bool :=
  match k with
  | LayerK.additiveL _ => true
  | LayerK.affineL _ => true
  | _ => false

/-- Claim C7: constructing a `RevNetStep` with a permutation selector
outside reverse/shuffle/conv, or a coupling selector outside
additive/affine, raises (the explicit ValueError of lines 398 and 405,
or an earlier construction error), so model construction cannot
complete; and whenever construction does succeed, the step's layer list
is exactly a (possibly empty) normalization part followed by one
permutation layer followed by one coupling layer, in that order. -/
theorem c7_revnetstep_config (mkPerm : Nat → List Nat × List Nat)
    (mkNN : Nat → Nat → PyT → PyT) (numChannels : Nat) (a : FlowArgs) :
    (a.permutation ∉ (["reverse", "shuffle", "conv"] : List String) →
      isErrE (RevNetStep.init mkPerm mkNN numChannels a) = true)
    ∧ (a.coupling ∉ (["additive", "affine"] : List String) →
      isErrE (RevNetStep.init mkPerm mkNN numChannels a) = true)
    ∧ (∀ ls, RevNetStep.init mkPerm mkNN numChannels a = Except.ok ls →
      ∃ np pk ck, ls = np ++ [pk] ++ [ck]
        ∧ (np = [] ∨ np = [LayerK.batchnormL true])
        ∧ isPermK pk = true ∧ isCoupK ck = true) := by
  refine ⟨?_, ?_, ?_⟩
  · intro hp
    have hperm : permLayers mkPerm numChannels a = Except.error Err.valueError := by
      unfold permLayers
      rw [if_neg (fun h => hp (by simp [h])), if_neg (fun h => hp (by simp [h])),
        if_neg (fun h => hp (by simp [h]))]
    unfold RevNetStep.init
    cases hn : normLayers a with
    | error e => simp [isErrE]
    | ok np => simp [hperm, isErrE]
  · intro hc
    have hcoup : coupLayers mkNN numChannels a = Except.error Err.valueError := by
      unfold coupLayers
      rw [if_neg (fun h => hc (by simp [h])), if_neg (fun h => hc (by simp [h]))]
    unfold RevNetStep.init
    cases hn : normLayers a with
    | error e => simp [isErrE]
    | ok np =>
      cases hpm : permLayers mkPerm numChannels a with
      | error e => simp [isErrE]
      | ok pp => simp [hcoup, isErrE]
  · intro ls hls
    unfold RevNetStep.init at hls
    cases hn : normLayers a with
    | error e => rw [hn] at hls; exact absurd hls (by simp)
    | ok np =>
      rw [hn] at hls
      cases hpm : permLayers mkPerm numChannels a with
      | error e => rw [hpm] at hls; exact absurd hls (by simp)
      | ok pp =>
        rw [hpm] at hls
        cases hcp : coupLayers mkNN numChannels a with
        | error e => rw [hcp] at hls; exact absurd hls (by simp)
        | ok cp =>
          rw [hcp] at hls
          have hlseq : ls = np ++ pp ++ cp := by
            simp only [Except.ok.injEq] at hls
            exact hls.symm
          have hnp : np = [] ∨ np = [LayerK.batchnormL true] := by
            unfold normLayers at hn
            split at hn
            · simp only [Except.ok.injEq] at hn
              subst hn
              exact Or.inl rfl
            · split_ifs at hn
              · simp only [Except.ok.injEq] at hn
                subst hn
                exact Or.inr rfl
              · simp only [Except.ok.injEq] at hn
                subst hn
                exact Or.inl rfl
          have hpp : ∃ pk, pp = [pk] ∧ isPermK pk = true := by
            unfold permLayers at hpm
            by_cases h1 : a.permutation = "reverse"
            · rw [if_pos h1] at hpm; exact absurd hpm (by simp)
            · rw [if_neg h1] at hpm
              by_cases h2 : a.permutation = "shuffle"
              · rw [if_pos h2] at hpm
                simp only [Except.ok.injEq] at hpm
                subst hpm
                exact ⟨_, rfl, rfl⟩
              · rw [if_neg h2] at hpm
                by_cases h3 : a.permutation = "conv"
                · rw [if_pos h3] at hpm; exact absurd hpm (by simp)
                · rw [if_neg h3] at hpm; exact absurd hpm (by simp)
          have hcpk : ∃ ck, cp = [ck] ∧ isCoupK ck = true := by
            unfold coupLayers at hcp
            by_cases h1 : a.coupling = "additive"
            · rw [if_pos h1] at hcp
              simp only [Except.ok.injEq] at hcp
              subst hcp
              exact ⟨_, rfl, rfl⟩
            · rw [if_neg h1] at hcp
              by_cases h2 : a.coupling = "affine"
              · rw [if_pos h2] at hcp
                simp only [Except.ok.injEq] at hcp
                subst hcp
                exact ⟨_, rfl, rfl⟩
              · rw [if_neg h2] at hcp; exact absurd hcp (by simp)
          obtain ⟨pk, hpk, hpkP⟩ := hpp
          obtain ⟨ck, hck, hckC⟩ := hcpk
          exact ⟨np, pk, ck, by rw [hlseq, hpk, hck], hnp, hpkP, hckC⟩

/-- A configuration with an unrecognized permutation selector. -/
def aBadPerm : FlowArgs := ⟨Option.none, "cyclic", "additive", 1, 1, false⟩

/-- A configuration with an unrecognized coupling selector. -/
def aBadCoup : FlowArgs := ⟨Option.none, "shuffle", "neural", 1, 1, false⟩

/-- A fully recognized configuration with all three parts present. -/
def aGood : FlowArgs := ⟨some "batchnorm", "shuffle", "affine", 1, 1, false⟩

/-- The step layer list constructed for `aGood` at 4 channels. -/
def wStep : List LayerK :=
  [LayerK.batchnormL true,
   LayerK.shuffleL (List.range 4) (List.range 4),
   LayerK.affineL (wNN 2 4)]

/-- Witness for C7: an unrecognized permutation and an unrecognized
coupling each make construction fail, and the constructible `aGood`
yields a step ordered normalization, permutation, coupling. -/
theorem c7_revnetstep_config_witness :
    (aBadPerm.permutation ∉ (["reverse", "shuffle", "conv"] : List String)
      ∧ isErrE (RevNetStep.init wPerm wNN 4 aBadPerm) = true)
    ∧ (aBadCoup.coupling ∉ (["additive", "affine"] : List String)
      ∧ isErrE (RevNetStep.init wPerm wNN 4 aBadCoup) = true)
    ∧ (∃ np pk ck, wStep = np ++ [pk] ++ [ck]
        ∧ (np = [] ∨ np = [LayerK.batchnormL true])
        ∧ isPermK pk = true ∧ isCoupK ck = true) :=
  ⟨⟨by decide, (c7_revnetstep_config wPerm wNN 4 aBadPerm).1 (by decide)⟩,
   ⟨by decide, (c7_revnetstep_config wPerm wNN 4 aBadCoup).2.1 (by decide)⟩,
   (c7_revnetstep_config wPerm wNN 4 aGood).2.2 wStep rfl⟩
